import Mathlib

/-!
Verification development for the agentic honeypot engagement core.

The Python sources under `app/` are shallowly embedded here:
strings are modelled as `List Char` (`Str`), the per-session mutable
dictionary as the `Session` structure, and the `analyze-message` route
as a pure state-transition function `analyzeMessage` that is additionally
parameterised by the outcome of the (I/O) report dispatch.
-/

/-- Strings of the embedded program; Python `str` is modelled as `List Char`. -/
abbrev Str := List Char

/-- Python `s.lower()` (ASCII case folding suffices for the keyword lists used). -/
def lowerStr (s : Str) : Str := s.map Char.toLower

/-- Python `s.strip()`: drop whitespace from both ends. -/
def trimStr (s : Str) : Str :=
  ((s.dropWhile Char.isWhitespace).reverse.dropWhile Char.isWhitespace).reverse

/-- Python substring test `pat in s` (the `in` operator on `str`). -/
def occursIn (pat : Str) : Str → Bool
  | [] => pat.isEmpty
  | c :: rest => pat.isPrefixOf (c :: rest) || occursIn pat rest

/-- Python slice `l[-n:]`: the last `n` entries (all of `l` when shorter). -/
def lastEntries (n : Nat) (l : List α) : List α := l.drop (l.length - n)

/-- A regex word character `\w` in the ASCII range: `[A-Za-z0-9_]`. -/
def isWordChar (c : Char) : Bool := c.isAlphanum || c == '_'

/-- Python `int(s)` on a string of decimal digits. -/
def digitsToNat (s : Str) : Nat := s.foldl (fun n c => n * 10 + (c.toNat - 48)) 0

/-- Helper: `dropWhile` never lengthens a list (used for scanner termination). -/
theorem dropWhile_length_le (p : α → Bool) (l : List α) :
    (l.dropWhile p).length ≤ l.length := by
  induction l with
  | nil => simp [List.dropWhile]
  | cons a t ih =>
    rw [List.dropWhile_cons]
    split
    · exact Nat.le_trans ih (Nat.le_succ _)
    · exact Nat.le_refl _

/-- A message as it appears in request payloads, session storage and
conversation histories (`{"sender": ..., "text": ..., "timestamp": ...}`). -/
structure Msg where
  sender : String
  text : Str
  timestamp : Int
deriving Repr, DecidableEq

/-! ## `app/core/scam_detector.py` -/

def FINANCIAL_KEYWORDS : List Str :=
  ["bank", "account", "upi", "payment", "transaction", "wallet", "credit", "debit"].map
    String.toList

def ACTION_KEYWORDS : List Str :=
  ["send", "verify", "click", "update", "confirm", "share", "provide", "enter"].map
    String.toList

def SENSITIVE_KEYWORDS : List Str :=
  ["otp", "pin", "password", "cvv", "secret", "code"].map String.toList

def URGENCY_KEYWORDS : List Str :=
  ["urgent", "immediately", "now", "asap", "quickly", "today", "blocked", "suspended",
    "freeze"].map String.toList

def THREAT_KEYWORDS : List Str :=
  ["block", "suspend", "freeze", "cancel", "close", "locked", "unauthorized"].map String.toList

def ACTION_REQUEST_KEYWORDS : List Str :=
  ["click", "download", "install", "update", "renew"].map String.toList

/-- `sum(1 for w in kws if w in msg)`. -/
def countMatches (kws : List Str) (msg : Str) : Nat := (kws.filter (occursIn · msg)).length

/-- `any(w in msg for w in kws)`. -/
def anyMatch (kws : List Str) (msg : Str) : Bool := kws.any (occursIn · msg)

/-- `re.search(URL_REGEX, msg)` for `URL_REGEX = https?://[^\s]+`: some position
starts with `http://` or `https://` followed by at least one non-space character. -/
def hasUrlAt : Str → Bool
  | [] => false
  | c :: rest =>
    (("http://").toList.isPrefixOf (c :: rest)
        && (match (c :: rest).drop 7 with
            | [] => false
            | d :: _ => !d.isWhitespace))
      || (("https://").toList.isPrefixOf (c :: rest)
        && (match (c :: rest).drop 8 with
            | [] => false
            | d :: _ => !d.isWhitespace))
      || hasUrlAt rest

/-- Character class `[a-zA-Z0-9-]` of `SUSPICIOUS_DOMAIN_REGEX`. -/
def isDomNameChar (c : Char) : Bool := c.isAlphanum || c == '-'

/-- `re.search(SUSPICIOUS_DOMAIN_REGEX, msg)` for `(@[a-zA-Z0-9-]+\.[a-zA-Z]{2,})`:
an `@` followed by at least one name character, a dot, then at least two letters.
Since `.` is not a name character, the `+` group always extends to the maximal run. -/
def hasSuspiciousDomainAt : Str → Bool
  | [] => false
  | '@' :: rest =>
    (decide (0 < (rest.takeWhile isDomNameChar).length)
        && (match rest.dropWhile isDomNameChar with
            | '.' :: a :: b :: _ => a.isAlpha && b.isAlpha
            | _ => false))
      || hasSuspiciousDomainAt rest
  | _ :: rest => hasSuspiciousDomainAt rest

def HESITATION_MARKERS : List Str :=
  ["worried", "doubt", "safe", "hesitate", "not sure"].map String.toList

/-- `detect_scam(message, conversation_history)`; returns
`(is_scam, reasons, score)` exactly as the Python function builds them. -/
def detectScam (message : Str) (history : List Msg) : Bool × List String × Nat :=
  let msg := lowerStr message
  -- financial context
  let financialMatches := countMatches FINANCIAL_KEYWORDS msg
  let score := financialMatches
  let reasons : List String := if financialMatches > 0 then ["financial context"] else []
  -- action requested
  let actionMatches := countMatches ACTION_KEYWORDS msg
  let score := if actionMatches > 0 then score + actionMatches else score
  let reasons := if actionMatches > 0 then reasons ++ ["action requested"] else reasons
  -- sensitive information request
  let sensitiveMatches := countMatches SENSITIVE_KEYWORDS msg
  let score := if sensitiveMatches > 0 then score + sensitiveMatches * 3 else score
  let reasons := if sensitiveMatches > 0 then reasons ++ ["sensitive info request"] else reasons
  -- urgency / threat tactics
  let urgencyMatches := countMatches URGENCY_KEYWORDS msg
  let threatMatches := countMatches THREAT_KEYWORDS msg
  let score := if urgencyMatches > 0 then score + urgencyMatches * 2 else score
  let reasons := if urgencyMatches > 0 then reasons ++ ["urgency/threat tactics"] else reasons
  let score := if threatMatches > 0 then score + threatMatches * 2 else score
  let reasons :=
    if threatMatches > 0 then
      if "urgency/threat tactics" ∈ reasons then reasons else reasons ++ ["threat language"]
    else reasons
  -- external links
  let score := if hasUrlAt msg then score + 3 else score
  let reasons := if hasUrlAt msg then reasons ++ ["external link detected"] else reasons
  -- suspicious domains
  let score := if hasSuspiciousDomainAt msg then score + 2 else score
  let reasons := if hasSuspiciousDomainAt msg then reasons ++ ["suspicious domain"] else reasons
  -- action request for links/downloads
  let actionRequestMatches := countMatches ACTION_REQUEST_KEYWORDS msg
  let score := if actionRequestMatches > 0 then score + actionRequestMatches * 2 else score
  let reasons :=
    if actionRequestMatches > 0 then reasons ++ ["malicious action request"] else reasons
  -- combination of financial + action + urgency
  let hasFinancial := anyMatch FINANCIAL_KEYWORDS msg
  let hasAction := anyMatch ACTION_KEYWORDS msg
  let hasUrgency := anyMatch URGENCY_KEYWORDS msg
  let score := if hasFinancial && hasAction && hasUrgency then score + 5 else score
  let reasons :=
    if hasFinancial && hasAction && hasUrgency then
      reasons ++ ["classic scam pattern detected"]
    else reasons
  -- context-aware detection over the last 3 history entries; the Python loop
  -- adds 2 and appends the reason once per qualifying history message
  let escalations :=
    ((lastEntries 3 history).filter (fun m =>
        m.sender == "user" && anyMatch HESITATION_MARKERS (lowerStr m.text)
          && anyMatch (URGENCY_KEYWORDS ++ THREAT_KEYWORDS) msg)).length
  let score := score + 2 * escalations
  let reasons := reasons ++ List.replicate escalations "escalation despite user hesitation"
  (decide (score ≥ 4), reasons, score)

/-- `get_scam_details(message)`; returns the `types` list. -/
def getScamDetails (message : Str) : List String :=
  let msg := lowerStr message
  let scamType : List String :=
    (if anyMatch (["otp", "password", "pin", "cvv"].map String.toList) msg then
        ["credential theft"] else [])
      ++ (if anyMatch (["click", "download", "link"].map String.toList) msg then
        ["malware distribution"] else [])
      ++ (if anyMatch (["bank", "account", "upi", "payment"].map String.toList) msg then
        ["financial fraud"] else [])
      ++ (if anyMatch (["verify", "confirm", "update"].map String.toList) msg then
        ["phishing"] else [])
  if scamType = [] then ["unknown scam"] else scamType

/-! ## `app/core/agent.py` -/

/-- `RESPONSE_TEMPLATES`: the fixed, categorized template bank, in its
declaration order. -/
def RESPONSE_TEMPLATES : List (String × List Str) :=
  [("upi",
    ["I'm not sure what UPI is, can you explain?",
     "Is it safe to share my UPI ID? I'm worried about security.",
     "Can you tell me why you need my UPI ID?"].map String.toList),
   ("otp",
    ["Is it safe to share OTP? What will you use it for?",
     "Why do you need my OTP? I've heard it's dangerous.",
     "Can someone misuse my OTP if I share it?"].map String.toList),
   ("password",
    ["Should I really share my password? That sounds risky.",
     "Why do you need access to my account password?",
     "I don't think it's safe to share passwords. Right?"].map String.toList),
   ("cvv",
    ["You're asking for my CVV? That's the security code, right?",
     "Is it safe to share CVV over message? I'm concerned.",
     "Why would you need my CVV to verify my account?"].map String.toList),
   ("link",
    ["Can you explain what this link is for?",
     "Is this link safe to click? Where does it take me?",
     "Why should I click on this? What happens next?"].map String.toList),
   ("download",
    ["Is it safe to download that? What does it do?",
     "Why do I need to download an app to verify my account?",
     "Can you explain what this download is for?"].map String.toList),
   ("verify",
    ["How will the verification process work?",
     "What happens after I verify? Is my account safe?",
     "Can you explain this verification process?"].map String.toList),
   ("account_blocked",
    ["Why is my account blocked? What did I do?",
     "When will my account be unblocked? How long does it take?",
     "Is there another way to resolve this without verification?"].map String.toList),
   ("urgent",
    ["Why is this so urgent? What happens if I don't act now?",
     "How much time do I have to respond?",
     "Is this really an emergency? Can it wait?"].map String.toList),
   ("default",
    ["Can you explain that more clearly?",
     "I didn't understand. Can you rephrase?",
     "What exactly are you asking me to do?",
     "Can you provide more details?",
     "I'm confused about this. Help me understand."].map String.toList)]

/-- `analyze_message_context(message, conversation_history)`: the Python dict
is modelled as an association list in insertion order. -/
def analyzeMessageContext (message : Str) (history : List Msg) : List (String × Bool) :=
  let msgLower := lowerStr message
  let _ := history   -- the parameter is accepted but unused, as in the source
  [("upi", occursIn ("upi").toList msgLower),
   ("otp", occursIn ("otp").toList msgLower),
   ("password", occursIn ("password").toList msgLower),
   ("cvv", occursIn ("cvv").toList msgLower),
   ("link", occursIn ("link").toList msgLower || occursIn ("click").toList msgLower
      || occursIn ("http").toList msgLower),
   ("download", occursIn ("download").toList msgLower
      || occursIn ("install").toList msgLower),
   ("verify", occursIn ("verify").toList msgLower),
   ("account_blocked", anyMatch (["block", "suspended", "locked", "freeze"].map String.toList)
      msgLower),
   ("urgent", anyMatch (["urgent", "immediately", "now", "asap", "today"].map String.toList)
      msgLower)]

/-- `get_agent_reply(current_message, conversation_history, previous_replies)`. -/
def getAgentReply (currentMessage : Str) (history : List Msg)
    (previousReplies : List Str) : Str :=
  let context := analyzeMessageContext currentMessage history
  -- first context key that is detected (none of the keys is "default")
  let replyCategory :=
    match context.find? (fun p => p.2 && p.1 != "default") with
    | some p => p.1
    | none => "default"
  -- RESPONSE_TEMPLATES.get(reply_category, RESPONSE_TEMPLATES["default"])
  let templates :=
    match RESPONSE_TEMPLATES.find? (fun p => p.1 == replyCategory) with
    | some p => p.2
    | none => (RESPONSE_TEMPLATES.getLastD ("default", [])).2
  -- first template not among the last 3 previous replies
  let selectedReply := templates.find? (fun t => !((lastEntries 3 previousReplies).contains t))
  match selectedReply with
  | some t => t
  | none => templates.headD []   -- fallback: templates[0]

/-- `generate_agent_reply(conversation_history)`: the wrapper the route calls.
It ignores the current inbound message entirely: it replies to the last
scammer-sender entry of the supplied history, with the history's user-sender
entries as the anti-repetition memory. -/
def generateAgentReply (history : List Msg) : Str :=
  if history.isEmpty then ("Why is my account being blocked?").toList
  else
    match (history.reverse).find? (fun m => m.sender == "scammer") with
    | none => ("Can you explain that more clearly?").toList
    | some lastScammerMsg =>
      let previousReplies := (history.filter (fun m => m.sender == "user")).map Msg.text
      getAgentReply lastScammerMsg.text history previousReplies

/-- `should_continue_engagement(conversation_history, message_count, max_messages)`:
`False` once the hard cap is reached, otherwise `True` (the `message_count >= 5`
branch in the source is an inert `pass`). -/
def shouldContinueEngagement (history : List Msg) (messageCount maxMessages : Nat) : Bool :=
  let _ := history
  if messageCount ≥ maxMessages then false else true

/-! ## `app/core/extractor.py`

`re.findall` over the extractor's patterns is embedded as a leftmost,
non-overlapping scanner (`scanAll`) with one matcher per regex.  Word
boundaries `\b` are resolved against the preceding character; greedy
repetition with the minimal backtracking these particular patterns allow is
reproduced in each matcher (see the individual comments). -/

/-- `\b` test for a match beginning with character `c` preceded by `prev`. -/
def boundaryBefore (prev : Option Char) (c : Char) : Bool :=
  match prev with
  | none => isWordChar c
  | some p => isWordChar p != isWordChar c

/-- Generic driver for `re.findall`: `m prev s` returns the token matched at
the head of `s` (`prev` is the character just before `s`, for `\b` tests); on
a match the scan resumes immediately after the token (the `skip` counter
carries the remaining token length over the structural recursion), otherwise
one character further — i.e. leftmost, non-overlapping matches. -/
def scanAll (m : Option Char → Str → Option Str) : Nat → Option Char → Str → List Str
  | _, _, [] => []
  | skip + 1, _, c :: rest => scanAll m skip (some c) rest
  | 0, prev, c :: rest =>
    match m prev (c :: rest) with
    | some tok => tok :: scanAll m (tok.length - 1) (some c) rest
    | none => scanAll m 0 (some c) rest

/-- Matcher for `BANK_ACCOUNT_REGEX = \b\d{9,18}\b`: a `\b` never falls
between two digits, so a match is exactly a maximal digit run of length 9–18
whose flanking characters are not word characters. -/
def bankTokenAt (prev : Option Char) (s : Str) : Option Str :=
  match s with
  | [] => none
  | c :: _ =>
    if c.isDigit && boundaryBefore prev c then
      let run := s.takeWhile Char.isDigit
      let endOk :=
        match (s.drop run.length).head? with
        | none => true
        | some d => !(isWordChar d)
      if 9 ≤ run.length && run.length ≤ 18 && endOk then some run else none
    else none

/-- `re.findall(r"\b\d{9,18}\b", text)`. -/
def findDigitTokens (text : Str) : List Str := scanAll bankTokenAt 0 none text

/-- Matcher for `URL_REGEX = https?://[^\s]+`: the scheme at the head of `s`
followed by at least one more non-whitespace character; greedy `[^\s]+` makes
the token the maximal non-whitespace run. -/
def urlTokenAt (_ : Option Char) (s : Str) : Option Str :=
  let tok := s.takeWhile (fun d => !d.isWhitespace)
  if ("http://").toList.isPrefixOf s && 7 < tok.length then some tok
  else if ("https://").toList.isPrefixOf s && 8 < tok.length then some tok
  else none

/-- `re.findall(URL_REGEX, text)`. -/
def findUrls (text : Str) : List Str := scanAll urlTokenAt 0 none text

/-- The `[\w.\-]` class of `UPI_REGEX`. -/
def upiLocalChar (c : Char) : Bool := isWordChar c || c == '.' || c == '-'

/-- Matcher for `UPI_REGEX = \b[\w.\-]{2,}@[a-zA-Z]{2,}\b` (`re.IGNORECASE`
changes nothing: both classes already cover both cases). The `{2,}` groups are
greedy; since `@` is outside the first class, the local part is the maximal
run, and the handle is the maximal letter run with a `\b` after it. -/
def upiTokenAt (prev : Option Char) (s : Str) : Option Str :=
  match s with
  | [] => none
  | c :: _ =>
    if upiLocalChar c && boundaryBefore prev c then
      let localPart := s.takeWhile upiLocalChar
      if localPart.length < 2 then none
      else
        match s.drop localPart.length with
        | '@' :: rest2 =>
          let handle := rest2.takeWhile Char.isAlpha
          let endOk :=
            match (rest2.drop handle.length).head? with
            | none => true
            | some d => !(isWordChar d)
          if 2 ≤ handle.length && endOk then some (localPart ++ '@' :: handle) else none
        | _ => none
    else none

/-- `re.findall(UPI_REGEX, text, re.IGNORECASE)`. -/
def findUpiIds (text : Str) : List Str := scanAll upiTokenAt 0 none text

/-- Matcher for `PHONE_REGEX = (?:\+91|91|0)?\s*[6-9]\d{9}` (no `\b`): the
alternation is tried in declaration order, then absent; then greedy
whitespace; then a mobile-format 10-digit number.  The token is the whole
match, leading prefix and whitespace included, as `re.findall` returns for a
pattern without capturing groups. -/
def phoneTokenAt (_ : Option Char) (s : Str) : Option Str :=
  (["+91", "91", "0", ""].map String.toList).findSome? (fun p =>
    if p.isPrefixOf s then
      let s1 := s.drop p.length
      let ws := s1.takeWhile Char.isWhitespace
      let s2 := s1.drop ws.length
      match s2 with
      | c :: _ =>
        if ('6' ≤ c && c ≤ '9') && (s2.take 10).length = 10
            && (s2.take 10).all Char.isDigit then
          some (p ++ ws ++ s2.take 10)
        else none
      | [] => none
    else none)

/-- `re.findall(PHONE_REGEX, text)`. -/
def findPhones (text : Str) : List Str := scanAll phoneTokenAt 0 none text

/-- The `[A-Za-z0-9._%+-]` class of `EMAIL_REGEX`. -/
def emailLocalChar (c : Char) : Bool :=
  c.isAlphanum || c == '.' || c == '_' || c == '%' || c == '+' || c == '-'

/-- The `[A-Za-z0-9.-]` class of `EMAIL_REGEX`. -/
def emailDomainChar (c : Char) : Bool := c.isAlphanum || c == '.' || c == '-'

/-- The `[A-Z|a-z]` class of `EMAIL_REGEX` (letters, plus the literal `|`
that the source pattern accidentally includes). -/
def emailTldChar (c : Char) : Bool := c.isAlpha || c == '|'

/-- Dot positions of `l`, rightmost first (greedy backtracking order of the
`[A-Za-z0-9.-]+` group). -/
def dotPositionsDesc (l : Str) : List Nat :=
  ((List.range l.length).filter (fun j => l.getD j ' ' == '.')).reverse

/-- Matches `\.[A-Z|a-z]{2,}\b` inside the maximal domain-character run
`domRun` (whose following character, if any, is `next`): the rightmost dot
preceded by at least one domain character and followed by at least two
letters with a `\b` after them, per greedy backtracking. -/
def emailDomainMatch (domRun : Str) (next : Option Char) : Option Str :=
  (dotPositionsDesc domRun).findSome? (fun j =>
    if j = 0 then none
    else
      let tld := (domRun.drop (j + 1)).takeWhile emailTldChar
      if tld.length < 2 then none
      else
        let boundaryOk :=
          match (domRun.drop (j + 1 + tld.length)).head? with
          | some d => !(isWordChar d)
          | none =>
            match next with
            | some d => !(isWordChar d)
            | none => true
        if boundaryOk then some (domRun.take j ++ '.' :: tld) else none)

/-- Matcher for `EMAIL_REGEX = \b[A-Za-z0-9._%+-]+@[A-Za-z0-9.-]+\.[A-Z|a-z]{2,}\b`. -/
def emailTokenAt (prev : Option Char) (s : Str) : Option Str :=
  match s with
  | [] => none
  | c :: _ =>
    if emailLocalChar c && boundaryBefore prev c then
      let localPart := s.takeWhile emailLocalChar
      match s.drop localPart.length with
      | '@' :: rest2 =>
        let domRun := rest2.takeWhile emailDomainChar
        match emailDomainMatch domRun ((rest2.drop domRun.length).head?) with
        | some dom => some (localPart ++ '@' :: dom)
        | none => none
      | _ => none
    else none

/-- `re.findall(EMAIL_REGEX, text)`. -/
def findEmails (text : Str) : List Str := scanAll emailTokenAt 0 none text

/-- The `[a-km-zA-HJ-NP-Z1-9]` (base58) class of `BITCOIN_REGEX`. -/
def base58Char (c : Char) : Bool :=
  ('a' ≤ c && c ≤ 'k') || ('m' ≤ c && c ≤ 'z') || ('A' ≤ c && c ≤ 'H')
    || ('J' ≤ c && c ≤ 'N') || ('P' ≤ c && c ≤ 'Z') || ('1' ≤ c && c ≤ '9')

/-- Matcher for `BITCOIN_REGEX = \b[13][a-km-zA-HJ-NP-Z1-9]{25,34}\b`: a `1`
or `3` at a word boundary followed by a maximal base58 run of 25–34
characters with a `\b` after it (inside the run every position is
word-to-word, so only the maximal run can match). -/
def bitcoinTokenAt (prev : Option Char) (s : Str) : Option Str :=
  match s with
  | [] => none
  | c :: rest =>
    if (c == '1' || c == '3') && boundaryBefore prev c then
      let run := rest.takeWhile base58Char
      let endOk :=
        match (rest.drop run.length).head? with
        | none => true
        | some d => !(isWordChar d)
      if 25 ≤ run.length && run.length ≤ 34 && endOk then some (c :: run) else none
    else none

/-- `re.findall(BITCOIN_REGEX, text)`. -/
def findBitcoinAddresses (text : Str) : List Str := scanAll bitcoinTokenAt 0 none text

/-- Matcher for `IP_ADDRESS_REGEX = \b(?:\d{1,3}\.){3}\d{1,3}\b`: four
maximal digit runs of 1–3 digits separated by single dots, with word
boundaries outside (no range validation, exactly as the source comments). -/
def ipTokenAt (prev : Option Char) (s : Str) : Option Str :=
  match s with
  | [] => none
  | c :: _ =>
    if c.isDigit && boundaryBefore prev c then
      let r1 := s.takeWhile Char.isDigit
      if 3 < r1.length then none
      else
        match s.drop r1.length with
        | '.' :: t2 =>
          let r2 := t2.takeWhile Char.isDigit
          if r2.length < 1 || 3 < r2.length then none
          else
            match t2.drop r2.length with
            | '.' :: t3 =>
              let r3 := t3.takeWhile Char.isDigit
              if r3.length < 1 || 3 < r3.length then none
              else
                match t3.drop r3.length with
                | '.' :: t4 =>
                  let r4 := t4.takeWhile Char.isDigit
                  let endOk :=
                    match (t4.drop r4.length).head? with
                    | none => true
                    | some d => !(isWordChar d)
                  if 1 ≤ r4.length && r4.length ≤ 3 && endOk then
                    some (r1 ++ '.' :: r2 ++ '.' :: r3 ++ '.' :: r4)
                  else none
                | _ => none
            | _ => none
        | _ => none
    else none

/-- `re.findall(IP_ADDRESS_REGEX, text)`. -/
def findIpAddresses (text : Str) : List Str := scanAll ipTokenAt 0 none text

/-- The extractor's `SUSPICIOUS_KEYWORDS` vocabulary, in declaration order. -/
def SUSPICIOUS_KEYWORDS : List Str :=
  ["urgent", "verify", "blocked", "suspended", "freeze", "confirm",
   "immediate", "claim", "update", "click", "download", "authenticate",
   "password", "otp", "pin", "cvv", "secret", "validate", "activate",
   "renew", "expire", "unauthorized", "secure", "protect", "danger",
   "limited", "today", "now", "asap", "hurry", "quickly", "immediately"].map String.toList

/-- The hardcoded trusted-provider allowlist of the email filter. -/
def trustedEmailDomains : List Str :=
  ["@gmail.com", "@yahoo.com", "@outlook.com"].map String.toList

/-- `is_likely_timestamp(number_str)` (its arguments here are always digit
strings, so the `except` branch of the Python `int()` conversion never runs). -/
def isLikelyTimestamp (numberStr : Str) : Bool :=
  if numberStr.length > 13 then false
  else digitsToNat numberStr > 1000000000

/-- The eight-category intelligence dictionary. -/
structure Intelligence where
  bankAccounts : List Str
  upiIds : List Str
  phishingLinks : List Str
  phoneNumbers : List Str
  suspiciousKeywords : List Str
  emailAddresses : List Str
  bitcoinAddresses : List Str
  ipAddresses : List Str
deriving Repr, DecidableEq

/-- `clean_intelligence` on one category: drop falsy entries, lowercase and
strip each value, deduplicate (Python's `list(set(...))`, modelled as `dedup`
since only set contents are ever relied on), drop empties. -/
def cleanValues (values : List Str) : List Str :=
  (((values.filter (fun v => !v.isEmpty)).map (fun v => trimStr (lowerStr v))).dedup).filter
    (fun v => !v.isEmpty)

/-- `clean_intelligence(intel_dict)` applied to all eight categories. -/
def cleanIntelligence (intel : Intelligence) : Intelligence where
  bankAccounts := cleanValues intel.bankAccounts
  upiIds := cleanValues intel.upiIds
  phishingLinks := cleanValues intel.phishingLinks
  phoneNumbers := cleanValues intel.phoneNumbers
  suspiciousKeywords := cleanValues intel.suspiciousKeywords
  emailAddresses := cleanValues intel.emailAddresses
  bitcoinAddresses := cleanValues intel.bitcoinAddresses
  ipAddresses := cleanValues intel.ipAddresses

/-- `extract_intelligence(text, full_conversation)`. -/
def extractIntelligence (text : Str) (fullConversation : List Msg) : Intelligence :=
  let upiIds := findUpiIds text
  let phishingLinks := findUrls text
  let phoneNumbers := findPhones text
  -- bank accounts: regex matches, then the length/timestamp filter
  let accountMatches := findDigitTokens text
  let validAccounts := accountMatches.filter (fun acc =>
    (9 ≤ acc.length && acc.length ≤ 18) && !(isLikelyTimestamp acc))
  -- emails: filter out trusted providers unless a suspicious keyword corroborates
  let emailMatches := findEmails text
  let suspiciousEmails := emailMatches.filter (fun e =>
    !(trustedEmailDomains.any (fun d => occursIn d (lowerStr e)))
      || SUSPICIOUS_KEYWORDS.any (fun kw => occursIn kw (lowerStr text)))
  let bitcoinMatches := findBitcoinAddresses text
  let ipMatches := findIpAddresses text
  let foundKeywords := SUSPICIOUS_KEYWORDS.filter (fun kw => occursIn kw (lowerStr text))
  -- context pass over the full conversation: four categories, no email filter
  let convUpi := (fullConversation.map (fun m => findUpiIds m.text)).flatten
  let convLinks := (fullConversation.map (fun m => findUrls m.text)).flatten
  let convPhones := (fullConversation.map (fun m => findPhones m.text)).flatten
  let convEmails := (fullConversation.map (fun m => findEmails m.text)).flatten
  cleanIntelligence
    { bankAccounts := validAccounts
      upiIds := upiIds ++ convUpi
      phishingLinks := phishingLinks ++ convLinks
      phoneNumbers := phoneNumbers ++ convPhones
      suspiciousKeywords := foundKeywords
      emailAddresses := suspiciousEmails ++ convEmails
      bitcoinAddresses := bitcoinMatches
      ipAddresses := ipMatches }

/-! ## `app/utils/config.py` (the constants the core consults) -/

/-- `settings.MAX_MESSAGES_PER_SESSION` (default 20). -/
def MAX_MESSAGES_PER_SESSION : Nat := 20

/-- `settings.SCAM_SCORE_THRESHOLD` (default 4; `detect_scam` itself compares
against the literal 4). -/
def SCAM_SCORE_THRESHOLD : Nat := 4

/-- `settings.MIN_MESSAGES_BEFORE_CALLBACK` — read from config, but the route
branch consulting it is an inert `pass`. -/
def MIN_MESSAGES_BEFORE_CALLBACK : Nat := 3

/-! ## `app/core/agent.py` — `generate_agent_notes` -/

/-- Python `sep.join(parts)`. -/
def joinWith (sep : Str) : List Str → Str
  | [] => []
  | [x] => x
  | x :: xs => x ++ sep ++ joinWith sep xs

/-- `generate_agent_notes(conversation_history, extracted_intelligence)`. -/
def generateAgentNotes (history : List Msg) (intel : Intelligence) : Str :=
  let scammerMessages :=
    (history.filter (fun m => m.sender == "scammer")).map (fun m => lowerStr m.text)
  let fullText := joinWith (" ").toList scammerMessages
  let tactics : List Str :=
    (if anyMatch (["urgent", "immediately", "now", "asap"].map String.toList) fullText then
        [("urgency pressure").toList] else [])
      ++ (if anyMatch (["blocked", "suspended", "freeze", "locked"].map String.toList)
            fullText then [("threat/coercion").toList] else [])
      ++ (if anyMatch (["verify", "confirm", "authenticate"].map String.toList) fullText then
        [("credential phishing").toList] else [])
      ++ (if anyMatch (["upi", "payment", "transaction"].map String.toList) fullText then
        [("financial exploitation").toList] else [])
      ++ (if !intel.phishingLinks.isEmpty then [("malware distribution").toList] else [])
      ++ (if !intel.bankAccounts.isEmpty then [("account compromise").toList] else [])
  let tactics := if tactics.isEmpty then [("social engineering").toList] else tactics
  let notes := ("Scammer employed: ").toList ++ joinWith (", ").toList tactics
    ++ (". ").toList
  let notes := notes
    ++ (if !intel.upiIds.isEmpty then ("Requested UPI ID sharing. ").toList else [])
  let notes := notes
    ++ (if !intel.bankAccounts.isEmpty then ("Asked for bank details. ").toList else [])
  let notes := notes
    ++ (if !intel.phishingLinks.isEmpty then ("Provided suspicious links. ").toList else [])
  notes ++ ("Attempted to establish false trust and urgency throughout conversation.").toList

/-! ## `app/api/routes.py` and the `send_final_result` boundary -/

/-- What one `send_final_result` call comes to from the route's point of view:
`ok`: HTTP 200, the function returns `True`; `httpError`: a non-200 response,
the function returns `False`; `exception`: timeout, connection failure or any
other error, folded into a raised `CallbackException` (which the route
catches). -/
inductive DispatchOutcome
  | ok
  | httpError
  | exception
deriving Repr, DecidableEq

/-- The detection snapshot stored in `session["detection_details"]` on the
first threshold crossing. -/
structure DetectionDetails where
  score : Nat
  reasons : List String
  messageIndex : Nat
  scamTypes : List String
deriving Repr, DecidableEq

/-- One entry of `SESSION_STORE`.  The `created_at`/`last_activity` wall-clock
fields only feed the idle sweep and are not modelled; the initially empty
`detection_details` dict is `none`. -/
structure Session where
  messages : List Msg
  intelligence : Intelligence
  agentReplies : List Str
  scamDetected : Bool
  detectionDetails : Option DetectionDetails
  engagementConcluded : Bool
  scamScore : Nat
deriving Repr, DecidableEq

/-- `initialize_session`: the state a fresh session starts from. -/
def initializeSession : Session where
  messages := []
  intelligence :=
    { bankAccounts := [], upiIds := [], phishingLinks := [], phoneNumbers := [],
      suspiciousKeywords := [], emailAddresses := [], bitcoinAddresses := [],
      ipAddresses := [] }
  agentReplies := []
  scamDetected := false
  detectionDetails := none
  engagementConcluded := false
  scamScore := 0

/-- The per-category merge of the route (extend, then `list(set(...))`,
modelled as `dedup` since only set contents are ever relied on). -/
def mergeValues (acc new : List Str) : List Str := (acc ++ new).dedup

/-- The route's intelligence-merge loop: every category of the new bundle is
a category of the session bundle, so each of the eight is merged. -/
def mergeIntelligence (acc new : Intelligence) : Intelligence where
  bankAccounts := mergeValues acc.bankAccounts new.bankAccounts
  upiIds := mergeValues acc.upiIds new.upiIds
  phishingLinks := mergeValues acc.phishingLinks new.phishingLinks
  phoneNumbers := mergeValues acc.phoneNumbers new.phoneNumbers
  suspiciousKeywords := mergeValues acc.suspiciousKeywords new.suspiciousKeywords
  emailAddresses := mergeValues acc.emailAddresses new.emailAddresses
  bitcoinAddresses := mergeValues acc.bitcoinAddresses new.bitcoinAddresses
  ipAddresses := mergeValues acc.ipAddresses new.ipAddresses

/-- The payload `send_final_result` posts (five legacy categories only). -/
structure FinalReport where
  sessionId : String
  scamDetected : Bool
  totalMessagesExchanged : Nat
  bankAccounts : List Str
  upiIds : List Str
  phishingLinks : List Str
  phoneNumbers : List Str
  suspiciousKeywords : List Str
  agentNotes : Str
deriving Repr, DecidableEq

/-- One request to the analyze-message route: payload fields plus — because
the outbound dispatch is I/O — the outcome that call would have this turn. -/
structure TurnInput where
  sessionId : String
  message : Msg
  conversationHistory : List Msg
  dispatchOutcome : DispatchOutcome
deriving Repr, DecidableEq

/-- What one turn returns and what it dispatched (if anything). -/
structure TurnResult where
  status : String
  reply : Option Str
  dispatched : Option (FinalReport × DispatchOutcome)
deriving Repr, DecidableEq

/-- `"Scammer attempted fraud through social engineering."` — the
`agent_notes or ...` fallback inside `send_final_result`. -/
def defaultAgentNotes : Str :=
  ("Scammer attempted fraud through social engineering.").toList

/-- The body of `routes.analyze_message` after authentication and session
lookup, as a pure transition on one session's state.  `maxMessages` is the
`settings.MAX_MESSAGES_PER_SESSION` argument of the continuation check.  The
message record the route appends has exactly the fields of `inp.message`, so
it is reused directly.  On dispatch: `ok` sets `engagement_concluded`;
`httpError` (the function returned `False`) and `exception` (the raised
`CallbackException` is caught and only logged) leave the state unchanged.
The `elif total_messages >= MIN_MESSAGES_BEFORE_CALLBACK` branch is `pass`
and has no effect. -/
def analyzeMessage (session : Session) (inp : TurnInput) (maxMessages : Nat) :
    Session × TurnResult :=
  let messageText := inp.message.text
  let conversationHistory := inp.conversationHistory
  -- add message to session history
  let sessionMessages := session.messages ++ [inp.message]
  let totalMessages := sessionMessages.length
  -- detect scam intent; the score ceiling absorbs the new score
  let (isScam, reasons, score) := detectScam messageText conversationHistory
  let session := { session with
    messages := sessionMessages,
    scamScore := max session.scamScore score }
  if !isScam then
    (session, { status := "ignored", reply := none, dispatched := none })
  else
    -- mark scam as detected; freeze the snapshot on the first crossing
    let session :=
      if !session.scamDetected then
        { session with
          scamDetected := true,
          detectionDetails := some
            { score := score, reasons := reasons, messageIndex := totalMessages,
              scamTypes := getScamDetails messageText } }
      else session
    let fullConversation := conversationHistory ++ [inp.message]
    let newIntelligence := extractIntelligence messageText fullConversation
    let session := { session with
      intelligence := mergeIntelligence session.intelligence newIntelligence }
    let agentReply := generateAgentReply conversationHistory
    let session := { session with agentReplies := session.agentReplies ++ [agentReply] }
    let shouldContinue := shouldContinueEngagement fullConversation totalMessages maxMessages
    if !shouldContinue && !session.engagementConcluded then
      let agentNotes := generateAgentNotes fullConversation session.intelligence
      let report : FinalReport :=
        { sessionId := inp.sessionId, scamDetected := true,
          totalMessagesExchanged := totalMessages,
          bankAccounts := session.intelligence.bankAccounts,
          upiIds := session.intelligence.upiIds,
          phishingLinks := session.intelligence.phishingLinks,
          phoneNumbers := session.intelligence.phoneNumbers,
          suspiciousKeywords := session.intelligence.suspiciousKeywords,
          agentNotes := if agentNotes.isEmpty then defaultAgentNotes else agentNotes }
      match inp.dispatchOutcome with
      | DispatchOutcome.ok =>
        ({ session with engagementConcluded := true },
         { status := "success", reply := some agentReply,
           dispatched := some (report, DispatchOutcome.ok) })
      | outcome =>
        (session,
         { status := "success", reply := some agentReply,
           dispatched := some (report, outcome) })
    else
      (session, { status := "success", reply := some agentReply, dispatched := none })

/-- Run a sequence of turns against one session. -/
def runTurns (maxMessages : Nat) : Session → List TurnInput → Session
  | s, [] => s
  | s, i :: rest => runTurns maxMessages (analyzeMessage s i maxMessages).1 rest

/-- How many of the given turns end in a successful dispatch. -/
def dispatchSuccessCount (maxMessages : Nat) : Session → List TurnInput → Nat
  | _, [] => 0
  | s, i :: rest =>
    let step := analyzeMessage s i maxMessages
    (match step.2.dispatched with
      | some (_, DispatchOutcome.ok) => 1
      | _ => 0)
      + dispatchSuccessCount maxMessages step.1 rest

/-! ## Turn-level characterization of the route -/

/-- The scam verdict `detect_scam` gives the inbound message of a turn. -/
def msgIsScam (i : TurnInput) : Bool :=
  (detectScam i.message.text i.conversationHistory).1

/-- The reason list `detect_scam` gives the inbound message of a turn. -/
def msgReasons (i : TurnInput) : List String :=
  (detectScam i.message.text i.conversationHistory).2.1

/-- The score `detect_scam` gives the inbound message of a turn. -/
def msgScore (i : TurnInput) : Nat :=
  (detectScam i.message.text i.conversationHistory).2.2

/-- `detect_scam`'s verdict is by construction the threshold comparison on its
own score. -/
theorem detectScam_verdict (message : Str) (history : List Msg) :
    (detectScam message history).1
      = decide (SCAM_SCORE_THRESHOLD ≤ (detectScam message history).2.2) := rfl

/-- Helper: full characterization of one `analyzeMessage` turn, used by the
claim theorems below. -/
theorem analyzeMessage_spec (s : Session) (i : TurnInput) (m : Nat) :
    (analyzeMessage s i m).1.messages = s.messages ++ [i.message]
    ∧ (analyzeMessage s i m).1.scamScore = max s.scamScore (msgScore i)
    ∧ (analyzeMessage s i m).1.scamDetected = (s.scamDetected || msgIsScam i)
    ∧ (analyzeMessage s i m).1.detectionDetails =
        (if s.scamDetected then s.detectionDetails
         else if msgIsScam i then
           some { score := msgScore i, reasons := msgReasons i,
                  messageIndex := s.messages.length + 1,
                  scamTypes := getScamDetails i.message.text }
         else s.detectionDetails)
    ∧ (analyzeMessage s i m).2.status = (if msgIsScam i then "success" else "ignored")
    ∧ (analyzeMessage s i m).2.reply =
        (if msgIsScam i then some (generateAgentReply i.conversationHistory) else none)
    ∧ (analyzeMessage s i m).1.agentReplies =
        (if msgIsScam i then s.agentReplies ++ [generateAgentReply i.conversationHistory]
         else s.agentReplies)
    ∧ (analyzeMessage s i m).1.intelligence =
        (if msgIsScam i then
          mergeIntelligence s.intelligence
            (extractIntelligence i.message.text (i.conversationHistory ++ [i.message]))
         else s.intelligence)
    ∧ (analyzeMessage s i m).2.dispatched.isSome =
        (msgIsScam i && decide (m ≤ s.messages.length + 1) && !s.engagementConcluded)
    ∧ (analyzeMessage s i m).1.engagementConcluded =
        (s.engagementConcluded
          || ((analyzeMessage s i m).2.dispatched.isSome
            && (i.dispatchOutcome == DispatchOutcome.ok)))
    ∧ (∀ rep o, (analyzeMessage s i m).2.dispatched = some (rep, o) →
        o = i.dispatchOutcome) := by
  rcases hd : detectScam i.message.text i.conversationHistory with ⟨b, rs, sc⟩
  simp only [analyzeMessage, msgIsScam, msgReasons, msgScore, hd,
    shouldContinueEngagement]
  cases b with
  | false => simp
  | true =>
    simp only [Bool.not_true, Bool.true_and, if_neg (by simp : ¬(false = true)),
      List.length_append, List.length_cons, List.length_nil]
    by_cases hle : m ≤ s.messages.length + 1 <;>
      cases hsd : s.scamDetected <;>
        cases hconc : s.engagementConcluded <;>
          cases ho : i.dispatchOutcome <;>
            simp [hle, hsd, hconc, ho]

/-- `o.or fallback` for `Option`, written out (helper). -/
def orElseOpt (a b : Option α) : Option α :=
  match a with
  | some x => some x
  | none => b

/-- Specification function for C3: the detection snapshot of the first turn
whose message scores at or above the threshold, given that `k` messages are
already stored (the snapshot records the 1-based index of that message). -/
def firstScamSnapshot : Nat → List TurnInput → Option DetectionDetails
  | _, [] => none
  | k, i :: rest =>
    if msgIsScam i then
      some { score := msgScore i, reasons := msgReasons i, messageIndex := k + 1,
             scamTypes := getScamDetails i.message.text }
    else firstScamSnapshot (k + 1) rest

/-- Helper: a `foldl max` only grows its accumulator. -/
theorem le_foldl_max (l : List Nat) : ∀ a : Nat, a ≤ l.foldl max a := by
  induction l with
  | nil => intro a; simp
  | cons x t ih => intro a; exact le_trans (le_max_left a x) (ih (max a x))

/-- Helper: a concluded session never dispatches again on any later turn. -/
theorem dispatchSuccessCount_concluded (m : Nat) (inputs : List TurnInput) :
    ∀ s : Session, s.engagementConcluded = true → dispatchSuccessCount m s inputs = 0 := by
  induction inputs with
  | nil => intro s _; rfl
  | cons i rest ih =>
    intro s hs
    obtain ⟨-, -, -, -, -, -, -, -, h9, h10, -⟩ := analyzeMessage_spec s i m
    have hnone : (analyzeMessage s i m).2.dispatched = none := by
      rw [hs] at h9
      simp only [Bool.not_true, Bool.and_false] at h9
      cases hcase : (analyzeMessage s i m).2.dispatched with
      | none => rfl
      | some p => rw [hcase] at h9; simp at h9
    have hconc : (analyzeMessage s i m).1.engagementConcluded = true := by
      rw [h10, hs]; simp
    simp only [dispatchSuccessCount]
    rw [hnone, ih _ hconc]

/-- Helper: no run of turns ever records more than one dispatch success. -/
theorem dispatchSuccessCount_le_one (m : Nat) (inputs : List TurnInput) :
    ∀ s : Session, dispatchSuccessCount m s inputs ≤ 1 := by
  induction inputs with
  | nil => intro s; simp [dispatchSuccessCount]
  | cons i rest ih =>
    intro s
    obtain ⟨-, -, -, -, -, -, -, -, -, h10, h11⟩ := analyzeMessage_spec s i m
    simp only [dispatchSuccessCount]
    cases hdisp : (analyzeMessage s i m).2.dispatched with
    | none => simpa using ih _
    | some p =>
      rcases p with ⟨rep, o⟩
      cases o with
      | ok =>
        have hout : i.dispatchOutcome = DispatchOutcome.ok := (h11 rep _ hdisp).symm
        have hconc : (analyzeMessage s i m).1.engagementConcluded = true := by
          rw [h10, hdisp, hout]; simp
        rw [dispatchSuccessCount_concluded m rest _ hconc]
      | httpError => simpa using ih _
      | exception => simpa using ih _

/-- Helper: run-level facts about score ceiling, detection flag, message
count and the frozen snapshot, for an arbitrary start state. -/
theorem runTurns_facts (m : Nat) (inputs : List TurnInput) :
    ∀ s : Session,
      (runTurns m s inputs).scamScore = (inputs.map msgScore).foldl max s.scamScore
      ∧ (runTurns m s inputs).scamDetected
          = (s.scamDetected || inputs.any (fun i => msgIsScam i))
      ∧ (runTurns m s inputs).messages.length = s.messages.length + inputs.length
      ∧ (runTurns m s inputs).detectionDetails =
          (if s.scamDetected then s.detectionDetails
           else orElseOpt (firstScamSnapshot s.messages.length inputs) s.detectionDetails) := by
  induction inputs with
  | nil =>
    intro s
    simp [runTurns, firstScamSnapshot, orElseOpt]
  | cons i rest ih =>
    intro s
    obtain ⟨h1, h2, h3, h4, -, -, -, -, -, -, -⟩ := analyzeMessage_spec s i m
    obtain ⟨ih1, ih2, ih3, ih4⟩ := ih (analyzeMessage s i m).1
    simp only [runTurns]
    refine ⟨?_, ?_, ?_, ?_⟩
    · rw [ih1, h2]
      simp [List.foldl]
    · rw [ih2, h3]
      simp [Bool.or_assoc]
    · rw [ih3, h1]
      simp only [List.length_append, List.length_cons, List.length_nil]
      omega
    · rw [ih4, h3, h4, h1]
      simp only [List.length_append, List.length_cons, List.length_nil]
      cases hsd : s.scamDetected with
      | true => simp
      | false =>
        cases hscam : msgIsScam i with
        | true => simp [firstScamSnapshot, hscam, orElseOpt]
        | false => simp [firstScamSnapshot, hscam]

/-! ## Example inputs used by counterexamples and witnesses -/

/-- A scam-scoring inbound turn (`"otp now"` scores 3 + 2 = 5 ≥ 4) whose
dispatch, if attempted, fails with a non-200 response. -/
def exampleScamFailTurn : TurnInput where
  sessionId := "session-1"
  message := { sender := "scammer", text := ("otp now").toList, timestamp := 0 }
  conversationHistory := []
  dispatchOutcome := DispatchOutcome.httpError

/-- A below-threshold inbound turn (`"hi"` scores 0). -/
def exampleBenignTurn : TurnInput where
  sessionId := "session-1"
  message := { sender := "scammer", text := ("hi").toList, timestamp := 0 }
  conversationHistory := []
  dispatchOutcome := DispatchOutcome.ok

/-- A scam-scoring turn mentioning OTP, sent with an empty supplied history. -/
def exampleOtpTurn : TurnInput where
  sessionId := "session-2"
  message := { sender := "scammer", text := ("give me your otp now").toList, timestamp := 0 }
  conversationHistory := []
  dispatchOutcome := DispatchOutcome.httpError

/-- The same OTP message, but with a supplied history whose last scammer
entry talks about UPI instead. -/
def exampleOtpTurnUpiHistory : TurnInput :=
  { exampleOtpTurn with
    conversationHistory :=
      [{ sender := "scammer", text := ("send me your upi id now").toList, timestamp := 0 }] }

/-! ## Claims -/

/-- C1, counterexample: the claim says a message in a session with
`scamDetected` already `true` is always answered with status `"success"`.
On the code, after `"otp now"` puts the session in the detected state, the
below-threshold message `"hi"` is still answered `"ignored"` with no reply:
the route returns `ignored` for every non-scam message, detected or not. -/
theorem C1_counterexample :
    (analyzeMessage initializeSession exampleScamFailTurn
        MAX_MESSAGES_PER_SESSION).1.scamDetected = true
    ∧ (analyzeMessage
        (analyzeMessage initializeSession exampleScamFailTurn MAX_MESSAGES_PER_SESSION).1
        exampleBenignTurn MAX_MESSAGES_PER_SESSION).2.status = "ignored"
    ∧ (analyzeMessage
        (analyzeMessage initializeSession exampleScamFailTurn MAX_MESSAGES_PER_SESSION).1
        exampleBenignTurn MAX_MESSAGES_PER_SESSION).2.reply = none := by decide

/-- C1, amended: a message is answered `"ignored"` exactly when its own
score is below the scam threshold — regardless of whether the session has
already transitioned to the detected state — and `"success"` exactly when
its score reaches the threshold. -/
theorem C1_amended (s : Session) (i : TurnInput) (m : Nat) :
    ((analyzeMessage s i m).2.status = "ignored" ↔ msgScore i < SCAM_SCORE_THRESHOLD)
    ∧ ((analyzeMessage s i m).2.status = "success" ↔ SCAM_SCORE_THRESHOLD ≤ msgScore i) := by
  obtain ⟨-, -, -, -, h5, -, -, -, -, -, -⟩ := analyzeMessage_spec s i m
  have hv : msgIsScam i = decide (SCAM_SCORE_THRESHOLD ≤ msgScore i) :=
    detectScam_verdict i.message.text i.conversationHistory
  rw [h5, hv]
  by_cases h : SCAM_SCORE_THRESHOLD ≤ msgScore i
  · constructor <;> simp [h] <;> omega
  · constructor <;> simp [h] <;> omega

/-- C1, witness: the amended theorem applied to a concrete below-threshold
message arriving at the initial session state. -/
theorem C1_witness :
    (analyzeMessage initializeSession exampleBenignTurn MAX_MESSAGES_PER_SESSION).2.status
      = "ignored" :=
  (C1_amended initializeSession exampleBenignTurn MAX_MESSAGES_PER_SESSION).1.mpr (by decide)

set_option maxRecDepth 8192 in
/-- C2, counterexample: the claim says that after a failed dispatch "a
subsequent message in the same session triggers another dispatch attempt".
On the code, after 20 scam turns whose cap-triggered dispatch fails
(non-200) the session is still unconcluded, and the next message — scoring
below the threshold — is ignored and triggers no dispatch attempt at all. -/
theorem C2_counterexample :
    (analyzeMessage
        (runTurns MAX_MESSAGES_PER_SESSION initializeSession
          (List.replicate 19 exampleScamFailTurn))
        exampleScamFailTurn MAX_MESSAGES_PER_SESSION).2.dispatched.map Prod.snd
      = some DispatchOutcome.httpError
    ∧ (runTurns MAX_MESSAGES_PER_SESSION initializeSession
        (List.replicate 20 exampleScamFailTurn)).engagementConcluded = false
    ∧ (analyzeMessage
        (runTurns MAX_MESSAGES_PER_SESSION initializeSession
          (List.replicate 20 exampleScamFailTurn))
        exampleBenignTurn MAX_MESSAGES_PER_SESSION).2.dispatched = none
    ∧ (analyzeMessage
        (runTurns MAX_MESSAGES_PER_SESSION initializeSession
          (List.replicate 20 exampleScamFailTurn))
        exampleBenignTurn MAX_MESSAGES_PER_SESSION).2.status = "ignored" := by decide

/-- C2, amended: at most one dispatch ever succeeds per session; a turn
attempts a dispatch exactly when its message scores as scam, the stored
message count has reached the cap, and the session is not yet concluded
(so an ignored below-threshold message attempts nothing, while a subsequent
scam-scoring message does retry); the concluded flag becomes true exactly
on a successful dispatch and is terminal; a failed dispatch (non-200 or
exception) leaves it false. -/
theorem C2_amended (m : Nat) (inputs : List TurnInput) (s : Session) (i : TurnInput) :
    dispatchSuccessCount m initializeSession inputs ≤ 1
    ∧ (analyzeMessage s i m).2.dispatched.isSome
        = (msgIsScam i && decide (m ≤ s.messages.length + 1) && !s.engagementConcluded)
    ∧ (analyzeMessage s i m).1.engagementConcluded
        = (s.engagementConcluded
          || ((analyzeMessage s i m).2.dispatched.isSome
            && (i.dispatchOutcome == DispatchOutcome.ok)))
    ∧ (analyzeMessage s i m).2.dispatched.map Prod.snd
        = (if (analyzeMessage s i m).2.dispatched.isSome then some i.dispatchOutcome
           else none) := by
  obtain ⟨-, -, -, -, -, -, -, -, h9, h10, h11⟩ := analyzeMessage_spec s i m
  refine ⟨dispatchSuccessCount_le_one m inputs _, h9, h10, ?_⟩
  cases hdisp : (analyzeMessage s i m).2.dispatched with
  | none => simp
  | some p =>
    rcases p with ⟨rep, o⟩
    simp [h11 rep o hdisp]

/-- C3: along any run of turns from a fresh session, the scam-score ceiling
equals the running maximum of the per-message scores and is non-decreasing
over prefixes; the detected flag is the disjunction of the per-message
verdicts (so it transitions at most once, false to true, and never reverts);
and the detection snapshot is exactly the one frozen at the first message
that crossed the threshold, never overwritten by later messages. -/
theorem C3_session_invariants (m : Nat) (inputs : List TurnInput) (n : Nat) :
    (runTurns m initializeSession inputs).scamScore = (inputs.map msgScore).foldl max 0
    ∧ (runTurns m initializeSession (inputs.take n)).scamScore
        ≤ (runTurns m initializeSession inputs).scamScore
    ∧ (runTurns m initializeSession inputs).scamDetected
        = inputs.any (fun i => msgIsScam i)
    ∧ ((runTurns m initializeSession (inputs.take n)).scamDetected = true →
        (runTurns m initializeSession inputs).scamDetected = true)
    ∧ (runTurns m initializeSession inputs).detectionDetails = firstScamSnapshot 0 inputs := by
  obtain ⟨hsc, hdet, -, hdd⟩ := runTurns_facts m inputs initializeSession
  obtain ⟨hscn, hdetn, -, -⟩ := runTurns_facts m (inputs.take n) initializeSession
  have hinit1 : initializeSession.scamScore = 0 := rfl
  have hinit2 : initializeSession.scamDetected = false := rfl
  refine ⟨by rw [hsc, hinit1], ?_, ?_, ?_, ?_⟩
  · rw [hsc, hscn, hinit1]
    calc ((inputs.take n).map msgScore).foldl max 0
        ≤ ((inputs.drop n).map msgScore).foldl max
            (((inputs.take n).map msgScore).foldl max 0) := le_foldl_max _ _
      _ = (((inputs.take n).map msgScore) ++ ((inputs.drop n).map msgScore)).foldl max 0 :=
          (List.foldl_append ..).symm
      _ = (inputs.map msgScore).foldl max 0 := by
          rw [← List.map_append, List.take_append_drop]
  · rw [hdet, hinit2]; simp
  · rw [hdet, hdetn, hinit2]
    intro h
    simp only [Bool.false_or, List.any_eq_true] at h ⊢
    obtain ⟨x, hx, hscam⟩ := h
    exact ⟨x, List.mem_of_mem_take hx, hscam⟩
  · rw [hdd, hinit2]
    rw [if_neg (by simp)]
    show orElseOpt (firstScamSnapshot 0 inputs) none = firstScamSnapshot 0 inputs
    cases firstScamSnapshot 0 inputs <;> simp [orElseOpt]

/-- C3, witness: the monotonicity implication applied to a concrete
single-turn run whose only message crosses the threshold. -/
theorem C3_witness :
    (runTurns MAX_MESSAGES_PER_SESSION initializeSession
      [exampleScamFailTurn]).scamDetected = true :=
  (C3_session_invariants MAX_MESSAGES_PER_SESSION [exampleScamFailTurn] 1).2.2.2.1 (by decide)

/-- C4, counterexample: the claim says the reply on a success turn is a
function of the latest inbound message's text and the session's own
`agentReplies`.  On the code, two turns with the same inbound text and the
same (fresh) session state but different supplied histories get different
replies: the route replies to the last scammer entry of the supplied
`conversationHistory`, not to the inbound message. -/
theorem C4_counterexample :
    exampleOtpTurn.message.text = exampleOtpTurnUpiHistory.message.text
    ∧ (analyzeMessage initializeSession exampleOtpTurn
        MAX_MESSAGES_PER_SESSION).2.status = "success"
    ∧ (analyzeMessage initializeSession exampleOtpTurnUpiHistory
        MAX_MESSAGES_PER_SESSION).2.status = "success"
    ∧ (analyzeMessage initializeSession exampleOtpTurn MAX_MESSAGES_PER_SESSION).2.reply
        = some (("Why is my account being blocked?").toList)
    ∧ (analyzeMessage initializeSession exampleOtpTurnUpiHistory
        MAX_MESSAGES_PER_SESSION).2.reply
        = some (("I'm not sure what UPI is, can you explain?").toList)
    ∧ (analyzeMessage initializeSession exampleOtpTurn MAX_MESSAGES_PER_SESSION).2.reply
        ≠ (analyzeMessage initializeSession exampleOtpTurnUpiHistory
            MAX_MESSAGES_PER_SESSION).2.reply := by decide

/-- C4, amended: on every success turn the reply is
`generate_agent_reply(conversationHistory)` — a function of the supplied
history alone (its last scammer entry selects the tactic category and its
user-sender entries are the anti-repetition memory), independent of the
inbound message text and of the session's accumulated `agentReplies` — and
that reply is appended to `agentReplies`. -/
theorem C4_amended (s : Session) (i : TurnInput) (m : Nat) :
    (analyzeMessage s i m).2.reply
      = (if msgIsScam i then some (generateAgentReply i.conversationHistory) else none)
    ∧ (analyzeMessage s i m).1.agentReplies
      = (if msgIsScam i then s.agentReplies ++ [generateAgentReply i.conversationHistory]
         else s.agentReplies) := by
  obtain ⟨-, -, -, -, -, h6, h7, -, -, -, -⟩ := analyzeMessage_spec s i m
  exact ⟨h6, h7⟩

/-- C10: every processed inbound message — an ignored one included — is
appended to the session's message list and has its score absorbed into the
scam-score ceiling (both equations hold unconditionally, before and
independently of the scam check), and the cap comparison that drives the
conclusion decision counts exactly those stored messages, so ignored
messages count toward `maxMessagesPerSession`. -/
theorem C10_every_message_counted (s : Session) (i : TurnInput) (m : Nat) :
    (analyzeMessage s i m).1.messages = s.messages ++ [i.message]
    ∧ (analyzeMessage s i m).1.scamScore = max s.scamScore (msgScore i)
    ∧ (analyzeMessage s i m).2.dispatched.isSome
        = (msgIsScam i && decide (m ≤ s.messages.length + 1) && !s.engagementConcluded) := by
  obtain ⟨h1, h2, -, -, -, -, -, -, h9, -, -⟩ := analyzeMessage_spec s i m
  exact ⟨h1, h2, h9⟩

/-- The first scripted scorer test message. -/
def exampleBankAlertText : Str :=
  ("Your bank account will be blocked. Verify immediately at https://bank-verify.com").toList

/-- The second scripted scorer test message. -/
def exampleBusText : Str := ("Hi, can you help with bus directions?").toList

/-- C7: the scorer's verdict is exactly the threshold comparison
`score >= 4` on its own total; the bank-alert message scores as scam with
total at least 4 and reasons including the three required tags; the bus
question scores as non-scam. -/
theorem C7_scorer_contract :
    (∀ (message : Str) (history : List Msg),
      (detectScam message history).1
        = decide (SCAM_SCORE_THRESHOLD ≤ (detectScam message history).2.2))
    ∧ (detectScam exampleBankAlertText []).1 = true
    ∧ 4 ≤ (detectScam exampleBankAlertText []).2.2
    ∧ "financial context" ∈ (detectScam exampleBankAlertText []).2.1
    ∧ "urgency/threat tactics" ∈ (detectScam exampleBankAlertText []).2.1
    ∧ "external link detected" ∈ (detectScam exampleBankAlertText []).2.1
    ∧ (detectScam exampleBusText []).1 = false := by
  refine ⟨fun message history => detectScam_verdict message history, ?_, ?_, ?_, ?_, ?_, ?_⟩
    <;> decide

/-- An accumulated bundle with one suspicious keyword (example input). -/
def exampleIntelA : Intelligence where
  bankAccounts := []
  upiIds := []
  phishingLinks := []
  phoneNumbers := []
  suspiciousKeywords := [("otp").toList]
  emailAddresses := []
  bitcoinAddresses := []
  ipAddresses := []

/-- A freshly extracted bundle with one phishing link (example input). -/
def exampleIntelB : Intelligence where
  bankAccounts := []
  upiIds := []
  phishingLinks := [("https://bad.example").toList]
  phoneNumbers := []
  suspiciousKeywords := [("otp").toList, ("verify").toList]
  emailAddresses := []
  bitcoinAddresses := []
  ipAddresses := []

/-- Helper: membership in a merged category is membership in either side. -/
theorem mergeValues_mem (a b : List Str) (x : Str) :
    x ∈ mergeValues a b ↔ (x ∈ a ∨ x ∈ b) := by
  simp [mergeValues, List.mem_dedup, List.mem_append]

/-- Helper: merging the same list twice has the same set contents as once. -/
theorem mergeValues_idem_toFinset (a b : List Str) :
    (mergeValues (mergeValues a b) b).toFinset = (mergeValues a b).toFinset := by
  ext x
  simp only [List.mem_toFinset, mergeValues_mem]
  tauto

/-- Helper: merging never removes an entry. -/
theorem mergeValues_mono (a b : List Str) (x : Str) (h : x ∈ a) : x ∈ mergeValues a b :=
  (mergeValues_mem a b x).mpr (Or.inl h)

/-- C9: merging a bundle into accumulated intelligence is idempotent per
category under set semantics (merging the same bundle twice yields the same
per-category sets as merging it once), and the merge never removes a
previously accumulated entry in any category. -/
theorem C9_merge_idempotent_monotone (acc b : Intelligence) :
    ((mergeIntelligence (mergeIntelligence acc b) b).bankAccounts.toFinset
        = (mergeIntelligence acc b).bankAccounts.toFinset
      ∧ (mergeIntelligence (mergeIntelligence acc b) b).upiIds.toFinset
        = (mergeIntelligence acc b).upiIds.toFinset
      ∧ (mergeIntelligence (mergeIntelligence acc b) b).phishingLinks.toFinset
        = (mergeIntelligence acc b).phishingLinks.toFinset
      ∧ (mergeIntelligence (mergeIntelligence acc b) b).phoneNumbers.toFinset
        = (mergeIntelligence acc b).phoneNumbers.toFinset
      ∧ (mergeIntelligence (mergeIntelligence acc b) b).suspiciousKeywords.toFinset
        = (mergeIntelligence acc b).suspiciousKeywords.toFinset
      ∧ (mergeIntelligence (mergeIntelligence acc b) b).emailAddresses.toFinset
        = (mergeIntelligence acc b).emailAddresses.toFinset
      ∧ (mergeIntelligence (mergeIntelligence acc b) b).bitcoinAddresses.toFinset
        = (mergeIntelligence acc b).bitcoinAddresses.toFinset
      ∧ (mergeIntelligence (mergeIntelligence acc b) b).ipAddresses.toFinset
        = (mergeIntelligence acc b).ipAddresses.toFinset)
    ∧ ((∀ x ∈ acc.bankAccounts, x ∈ (mergeIntelligence acc b).bankAccounts)
      ∧ (∀ x ∈ acc.upiIds, x ∈ (mergeIntelligence acc b).upiIds)
      ∧ (∀ x ∈ acc.phishingLinks, x ∈ (mergeIntelligence acc b).phishingLinks)
      ∧ (∀ x ∈ acc.phoneNumbers, x ∈ (mergeIntelligence acc b).phoneNumbers)
      ∧ (∀ x ∈ acc.suspiciousKeywords, x ∈ (mergeIntelligence acc b).suspiciousKeywords)
      ∧ (∀ x ∈ acc.emailAddresses, x ∈ (mergeIntelligence acc b).emailAddresses)
      ∧ (∀ x ∈ acc.bitcoinAddresses, x ∈ (mergeIntelligence acc b).bitcoinAddresses)
      ∧ (∀ x ∈ acc.ipAddresses, x ∈ (mergeIntelligence acc b).ipAddresses)) :=
  ⟨⟨mergeValues_idem_toFinset _ _, mergeValues_idem_toFinset _ _,
    mergeValues_idem_toFinset _ _, mergeValues_idem_toFinset _ _,
    mergeValues_idem_toFinset _ _, mergeValues_idem_toFinset _ _,
    mergeValues_idem_toFinset _ _, mergeValues_idem_toFinset _ _⟩,
   fun x h => mergeValues_mono _ _ x h, fun x h => mergeValues_mono _ _ x h,
   fun x h => mergeValues_mono _ _ x h, fun x h => mergeValues_mono _ _ x h,
   fun x h => mergeValues_mono _ _ x h, fun x h => mergeValues_mono _ _ x h,
   fun x h => mergeValues_mono _ _ x h, fun x h => mergeValues_mono _ _ x h⟩

/-- C9, witness: the monotonicity part applied to concrete bundles. -/
theorem C9_witness :
    ("otp").toList ∈ (mergeIntelligence exampleIntelA exampleIntelB).suspiciousKeywords :=
  (C9_merge_idempotent_monotone exampleIntelA exampleIntelB).2.2.2.2.2.1
    (("otp").toList) (by decide)

/-- Modelled from the spec's words (the comparison side of C8): the tactic
markers per category, in the strategist's fixed declaration order. -/
def specTacticMarkers : List (String × List Str) :=
  [("upi", [("upi").toList]),
   ("otp", [("otp").toList]),
   ("password", [("password").toList]),
   ("cvv", [("cvv").toList]),
   ("link", [("link").toList, ("click").toList, ("http").toList]),
   ("download", [("download").toList, ("install").toList]),
   ("verify", [("verify").toList]),
   ("account_blocked",
    [("block").toList, ("suspended").toList, ("locked").toList, ("freeze").toList]),
   ("urgent",
    [("urgent").toList, ("immediately").toList, ("now").toList, ("asap").toList,
     ("today").toList])]

/-- Modelled from the spec's words (the comparison side of C8): scan the
categories in declaration order, first marker match wins, `default` when
none; then the first template of that category not among the last 3 recent
own replies; when every template of the category was used, the category's
first template. -/
def specReplySelection (message : Str) (recentOwnReplies : List Str) : Str :=
  let msgLower := lowerStr message
  let category :=
    match specTacticMarkers.find? (fun p => p.2.any (fun mk => occursIn mk msgLower)) with
    | some p => p.1
    | none => "default"
  let templates :=
    match RESPONSE_TEMPLATES.find? (fun p => p.1 == category) with
    | some p => p.2
    | none => []
  match templates.find? (fun t => !((lastEntries 3 recentOwnReplies).contains t)) with
  | some t => t
  | none => templates.headD []

/-- Helper: the strategist's context-scan category agrees with the
spec-side marker-scan category. -/
theorem strategist_category_eq (message : Str) (history : List Msg) :
    (match (analyzeMessageContext message history).find? (fun p => p.2 && p.1 != "default") with
      | some p => p.1
      | none => "default")
    = (match specTacticMarkers.find?
          (fun p => p.2.any (fun mk => occursIn mk (lowerStr message))) with
      | some p => p.1
      | none => "default") := by
  simp only [analyzeMessageContext, specTacticMarkers, List.find?_cons, List.find?_nil,
    anyMatch, List.map_cons, List.map_nil, List.any_cons, List.any_nil, Bool.or_false,
    Bool.or_assoc]
  cases h1 : occursIn ("upi").toList (lowerStr message) <;>
    cases h2 : occursIn ("otp").toList (lowerStr message) <;>
      cases h3 : occursIn ("password").toList (lowerStr message) <;>
        cases h4 : occursIn ("cvv").toList (lowerStr message) <;>
          cases h5 : (occursIn ("link").toList (lowerStr message)
              || (occursIn ("click").toList (lowerStr message)
                || occursIn ("http").toList (lowerStr message))) <;>
            cases h6 : (occursIn ("download").toList (lowerStr message)
                || occursIn ("install").toList (lowerStr message)) <;>
              cases h7 : occursIn ("verify").toList (lowerStr message) <;>
                cases h8 : (occursIn ("block").toList (lowerStr message)
                    || (occursIn ("suspended").toList (lowerStr message)
                      || (occursIn ("locked").toList (lowerStr message)
                        || occursIn ("freeze").toList (lowerStr message)))) <;>
                  cases h9 : (occursIn ("urgent").toList (lowerStr message)
                      || (occursIn ("immediately").toList (lowerStr message)
                        || (occursIn ("now").toList (lowerStr message)
                          || (occursIn ("asap").toList (lowerStr message)
                            || occursIn ("today").toList (lowerStr message))))) <;>
                    rfl

/-- Helper: the strategist equals the spec-side selection on every input. -/
theorem getAgentReply_eq_spec (message : Str) (history : List Msg)
    (previousReplies : List Str) :
    getAgentReply message history previousReplies
      = specReplySelection message previousReplies := by
  simp only [getAgentReply, specReplySelection]
  rw [strategist_category_eq message history]
  cases hfind : specTacticMarkers.find?
      (fun p => p.2.any (fun mk => occursIn mk (lowerStr message))) with
  | none => rfl
  | some p =>
    have hp := List.mem_of_find?_eq_some hfind
    simp only [specTacticMarkers, List.mem_cons, List.not_mem_nil, or_false] at hp
    rcases hp with rfl | rfl | rfl | rfl | rfl | rfl | rfl | rfl | rfl <;> rfl

/-- C8: the strategist picks the tactic category by scanning the markers in
fixed declaration order (first match wins, `default` when none) and returns
the first template of that category not among the last 3 recent own
replies, falling back to the category's first template when all were used
(stated as agreement with the spec-side selection on every input); in
particular, with all but one otp template among the recent replies the
unused one is returned, and with all three used the first otp template is
returned. -/
theorem C8_strategist_selection (message : Str) (history : List Msg)
    (previousReplies : List Str) :
    getAgentReply message history previousReplies
      = specReplySelection message previousReplies
    ∧ getAgentReply ("share your otp").toList []
        [("Is it safe to share OTP? What will you use it for?").toList,
         ("Why do you need my OTP? I've heard it's dangerous.").toList]
      = ("Can someone misuse my OTP if I share it?").toList
    ∧ getAgentReply ("share your otp").toList []
        [("Is it safe to share OTP? What will you use it for?").toList,
         ("Why do you need my OTP? I've heard it's dangerous.").toList,
         ("Can someone misuse my OTP if I share it?").toList]
      = ("Is it safe to share OTP? What will you use it for?").toList :=
  ⟨getAgentReply_eq_spec message history previousReplies, by decide, by decide⟩

/-- Helper: every token emitted by a `scanAll` scan satisfies any property
that all outputs of its matcher satisfy. -/
theorem scanAll_sound {P : Str → Prop} (m : Option Char → Str → Option Str)
    (hm : ∀ prev s tok, m prev s = some tok → P tok) :
    ∀ (s : Str) (skip : Nat) (prev : Option Char) (tok : Str),
      tok ∈ scanAll m skip prev s → P tok := by
  intro s
  induction s with
  | nil =>
    intro skip prev tok htok
    cases skip <;> simp [scanAll] at htok
  | cons c rest ih =>
    intro skip prev tok htok
    cases skip with
    | succ skip => exact ih _ _ _ htok
    | zero =>
      simp only [scanAll] at htok
      cases hmatch : m prev (c :: rest) with
      | some t =>
        rw [hmatch] at htok
        rcases List.mem_cons.mp htok with h | h
        · exact h ▸ hm prev (c :: rest) t hmatch
        · exact ih _ _ _ h
      | none =>
        rw [hmatch] at htok
        exact ih _ _ _ htok

/-- Helper: the `\b\d{9,18}\b` matcher only emits digit strings. -/
theorem bankTokenAt_digits (prev : Option Char) (s tok : Str)
    (h : bankTokenAt prev s = some tok) : ∀ c ∈ tok, c.isDigit = true := by
  intro x hx
  match s with
  | [] => simp [bankTokenAt] at h
  | c :: rest =>
    simp only [bankTokenAt] at h
    split at h
    · split at h
      · injection h with h
        subst h
        exact List.mem_takeWhile_imp hx
      · exact absurd h (by simp)
    · exact absurd h (by simp)

/-- Helper: lowering a digit character is the identity. -/
theorem digit_toLower_eq (c : Char) (h : c.isDigit = true) : c.toLower = c := by
  simp only [Char.isDigit, Bool.and_eq_true, decide_eq_true_eq] at h
  simp only [Char.toLower, Char.toNat]
  rw [if_neg]
  rintro ⟨h1, -⟩
  have h2 : c.val.toNat ≤ 57 := h.2
  omega

/-- Helper: a digit character is not whitespace. -/
theorem digit_not_whitespace (c : Char) (h : c.isDigit = true) : c.isWhitespace = false := by
  simp only [Char.isDigit, Bool.and_eq_true, decide_eq_true_eq] at h
  have h1 : 48 ≤ c.val.toNat := h.1
  simp only [Char.isWhitespace, Bool.or_eq_false_iff, decide_eq_false_iff_not]
  refine ⟨⟨⟨fun he => ?_, fun he => ?_⟩, fun he => ?_⟩, fun he => ?_⟩ <;>
    (subst he; exact absurd h1 (by decide))

/-- Helper: lowering fixes digit strings. -/
theorem lowerStr_digits (l : Str) (h : ∀ c ∈ l, c.isDigit = true) : lowerStr l = l := by
  unfold lowerStr
  have hmap := List.map_congr_left (fun a ha => digit_toLower_eq a (h a ha))
  rw [hmap]
  exact List.map_id' l

/-- Helper: trimming fixes digit strings. -/
theorem trimStr_digits (l : Str) (h : ∀ c ∈ l, c.isDigit = true) : trimStr l = l := by
  have hd : ∀ (t : Str), (∀ c ∈ t, c.isDigit = true) →
      t.dropWhile Char.isWhitespace = t := by
    intro t ht
    cases t with
    | nil => rfl
    | cons c rest =>
      apply List.dropWhile_cons_of_neg
      simp [digit_not_whitespace c (ht c (List.mem_cons_self c rest))]
  unfold trimStr
  rw [hd l h, hd l.reverse (fun c hc => h c (List.mem_reverse.mp hc)), List.reverse_reverse]

/-- Helper: for value lists the cleaning pass fixes pointwise, membership in
the cleaned list is membership in the raw list plus non-emptiness. -/
theorem cleanValues_mem_iff (vals : List Str)
    (hfix : ∀ v ∈ vals, trimStr (lowerStr v) = v) (x : Str) :
    x ∈ cleanValues vals ↔ (x ∈ vals ∧ x ≠ []) := by
  unfold cleanValues
  constructor
  · intro hx
    rcases List.mem_filter.mp hx with ⟨hx1, hxne⟩
    have hx2 := List.mem_dedup.mp hx1
    rcases List.mem_map.mp hx2 with ⟨v, hv, hveq⟩
    rcases List.mem_filter.mp hv with ⟨hvval, -⟩
    rw [hfix v hvval] at hveq
    subst hveq
    refine ⟨hvval, ?_⟩
    simpa [List.isEmpty_iff] using hxne
  · rintro ⟨hx, hne⟩
    apply List.mem_filter.mpr
    refine ⟨List.mem_dedup.mpr ?_, by simpa [List.isEmpty_iff] using hne⟩
    apply List.mem_map.mpr
    exact ⟨x, List.mem_filter.mpr ⟨hx, by simpa [List.isEmpty_iff] using hne⟩, hfix x hx⟩

/-- C5: a digit run that the bank-account regex matches (9–18 digits at word
boundaries) appears in `bankAccounts` exactly when it does not look like a
timestamp — i.e. unless its integer value exceeds 1,000,000,000 and its
length is at most 13 digits. -/
theorem C5_bank_account_filter (text : Str) (conv : List Msg) (run : Str)
    (h1 : run ∈ findDigitTokens text) (h2 : 9 ≤ run.length) (h3 : run.length ≤ 18) :
    run ∈ (extractIntelligence text conv).bankAccounts
      ↔ ¬(1000000000 < digitsToNat run ∧ run.length ≤ 13) := by
  have hdig : ∀ tok ∈ findDigitTokens text, ∀ c ∈ tok, c.isDigit = true := by
    intro tok htok
    exact scanAll_sound bankTokenAt (fun prev s t ht => bankTokenAt_digits prev s t ht)
      text 0 none tok htok
  have hbank : (extractIntelligence text conv).bankAccounts
      = cleanValues ((findDigitTokens text).filter
          (fun acc => (9 ≤ acc.length && acc.length ≤ 18) && !(isLikelyTimestamp acc))) := by
    simp [extractIntelligence, cleanIntelligence]
  have hfix : ∀ v ∈ (findDigitTokens text).filter
      (fun acc => (9 ≤ acc.length && acc.length ≤ 18) && !(isLikelyTimestamp acc)),
      trimStr (lowerStr v) = v := by
    intro v hv
    have hvd := hdig v (List.mem_filter.mp hv).1
    rw [lowerStr_digits v hvd]
    exact trimStr_digits v hvd
  have hne : run ≠ [] := by
    intro he
    subst he
    simp at h2
  rw [hbank, cleanValues_mem_iff _ hfix run, List.mem_filter]
  simp only [h1, h2, h3, hne, isLikelyTimestamp, true_and, and_true,
    Bool.true_and, Bool.and_true, ne_eq, not_false_eq_true]
  by_cases hl : run.length > 13
  · rw [if_pos hl]
    simp
    omega
  · rw [if_neg hl]
    simp
    omega

/-- C5, witness: the theorem applied to a message carrying a 12-digit
leading-zero token below the threshold (kept) and a 13-digit token above
the threshold (dropped as a timestamp). -/
theorem C5_witness :
    ("000199999999").toList ∈
      (extractIntelligence ("pay to 000199999999 or 1699999999999 now").toList []).bankAccounts
    ∧ ¬(("1699999999999").toList ∈
      (extractIntelligence ("pay to 000199999999 or 1699999999999 now").toList
        []).bankAccounts) := by
  constructor
  · exact (C5_bank_account_filter ("pay to 000199999999 or 1699999999999 now").toList []
      (("000199999999").toList) (by decide) (by decide) (by decide)).mpr (by decide)
  · intro hmem
    exact (C5_bank_account_filter ("pay to 000199999999 or 1699999999999 now").toList []
      (("1699999999999").toList) (by decide) (by decide) (by decide)).mp hmem (by decide)

/-- A conversation message carrying a trusted-provider email (example). -/
def exampleGmailConvMsg : Msg where
  sender := "scammer"
  text := ("help@gmail.com").toList
  timestamp := 0

/-- C6, counterexample: the claim says every extracted email either has a
domain outside the trusted allowlist or is corroborated by a suspicious
keyword in the text.  On the code, a trusted-provider email appearing in a
conversation message is harvested by the context pass without the filter:
`help@gmail.com` lands in `emailAddresses` although its domain is on the
allowlist and the current text `"hello"` contains no suspicious keyword. -/
theorem C6_counterexample :
    ("help@gmail.com").toList ∈
      (extractIntelligence ("hello").toList [exampleGmailConvMsg]).emailAddresses
    ∧ (trustedEmailDomains.any
        (fun d => occursIn d (lowerStr ("help@gmail.com").toList))) = true
    ∧ (SUSPICIOUS_KEYWORDS.any
        (fun kw => occursIn kw (lowerStr ("hello").toList))) = false := by decide

/-- C6, amended: every address in `emailAddresses` is the cleaned form of a
match that either came from the current text and passed the
trusted-provider/suspicious-keyword filter, or was harvested — unfiltered —
from some message of the full conversation by the context pass. -/
theorem C6_amended (text : Str) (conv : List Msg) :
    ∀ e ∈ (extractIntelligence text conv).emailAddresses,
      ∃ e0, e = trimStr (lowerStr e0)
        ∧ ((e0 ∈ findEmails text
            ∧ (!(trustedEmailDomains.any (fun d => occursIn d (lowerStr e0)))
                || SUSPICIOUS_KEYWORDS.any (fun kw => occursIn kw (lowerStr text))) = true)
          ∨ ∃ mm ∈ conv, e0 ∈ findEmails mm.text) := by
  intro e he
  have hmails : (extractIntelligence text conv).emailAddresses
      = cleanValues (((findEmails text).filter
          (fun em => !(trustedEmailDomains.any (fun d => occursIn d (lowerStr em)))
            || SUSPICIOUS_KEYWORDS.any (fun kw => occursIn kw (lowerStr text))))
        ++ (conv.map (fun mm => findEmails mm.text)).flatten) := by
    simp [extractIntelligence, cleanIntelligence]
  rw [hmails] at he
  unfold cleanValues at he
  rcases List.mem_filter.mp he with ⟨he1, -⟩
  rcases List.mem_map.mp (List.mem_dedup.mp he1) with ⟨e0, he0, heq⟩
  rcases List.mem_filter.mp he0 with ⟨he0mem, -⟩
  refine ⟨e0, heq.symm, ?_⟩
  rcases List.mem_append.mp he0mem with h | h
  · rcases List.mem_filter.mp h with ⟨hmem, hfilt⟩
    exact Or.inl ⟨hmem, hfilt⟩
  · rcases List.mem_flatten.mp h with ⟨sub, hsub, hin⟩
    rcases List.mem_map.mp hsub with ⟨mm, hmm, rfl⟩
    exact Or.inr ⟨mm, hmm, hin⟩

/-- C6, witness: the amended theorem applied to the concrete trusted-email
conversation, with its membership hypothesis discharged by evaluation. -/
theorem C6_witness :
    ∃ e0, ("help@gmail.com").toList = trimStr (lowerStr e0)
      ∧ ((e0 ∈ findEmails ("hello").toList
          ∧ (!(trustedEmailDomains.any (fun d => occursIn d (lowerStr e0)))
              || SUSPICIOUS_KEYWORDS.any
                (fun kw => occursIn kw (lowerStr ("hello").toList))) = true)
        ∨ ∃ mm ∈ [exampleGmailConvMsg], e0 ∈ findEmails mm.text) :=
  C6_amended ("hello").toList [exampleGmailConvMsg] (("help@gmail.com").toList) (by decide)
